import Mathlib

/-!
Shallow embedding of src/ReconnectableEthers.js (class RecEthers).

The class runs on the single-threaded Node event loop: every handler body
executes atomically between suspension points (awaits and timer callbacks).
We model each synchronous segment of the source as a pure function on an
explicit state record, and an interleaving of segments as a fold of a step
function over a list of scheduled segments.  Timestamps are integers
(milliseconds, as produced by Date.now).
-/

namespace RecEthers

/-- Event names emitted through the EventEmitter base class:
pending (line 97), block (line 99), connected (line 186),
disconnected (line 206). -/
inductive Ev
  | connected
  | disconnected
  | pending
  | block
deriving DecidableEq, Repr

/-- Runtime errors a JavaScript expression evaluation can raise in the
fragments we model (property access on undefined). -/
inductive JsError
  | typeError
deriving DecidableEq, Repr

/-- Error type the spec assigns to the init validation path.  The source
code of init (lines 68 to 71) has no failure path, so no constructor of
this type is ever produced by the embedded init. -/
inductive ConfigurationError
  | invalidArguments
deriving DecidableEq, Repr

/-- WHATWG websocket readyState constant CONNECTING. -/
def WS_CONNECTING : Nat := 0

/-- WHATWG websocket readyState constant OPEN, the value of the global
WebSocket.OPEN compared against in isConnected (line 214). -/
def WS_OPEN : Nat := 1

/-- WHATWG websocket readyState constant CLOSED. -/
def WS_CLOSED : Nat := 3

/-- State of one RecEthers instance together with the event-loop
bookkeeping needed to observe the claims.

Instance fields of the source (constructor lines 52 to 61, init lines
68 to 71, handlers): uri, MAX_TIMEOUT, _isConnected,
_lastConnectionResponse (0 none, 1 success, 2 error), _lastTransaction
(undefined is none), the websocket of this.provider abstracted to its
readyState (none while this.provider is undefined), and whether the
keep-alive interval of __customOpen is active.

Event-loop bookkeeping: lockBusy and lockQueue model the async-lock
instance this.lock; connectIntervals counts the live retry intervals
installed by connect (line 128); establishPending counts calls of
__establishConnection whose promise has not settled; providersCreated
counts WebSocketProvider constructions (line 83); connectResolved counts
connect promises that have resolved; closeRequested counts calls of
this.provider._websocket.close() issued by reconnect (line 147);
isConnectedMethodDefined records that the class-field initialiser
(line 214) installed the isConnected arrow function on the instance;
emitted is the log of events emitted so far. -/
structure MState where
  uri : Option String
  MAX_TIMEOUT : Option Int
  _isConnected : Bool
  _lastConnectionResponse : Nat
  _lastTransaction : Option Int
  providerReadyState : Option Nat
  keepAlive : Bool
  lockBusy : Bool
  lockQueue : Nat
  connectIntervals : Nat
  establishPending : Nat
  providersCreated : Nat
  connectResolved : Nat
  closeRequested : Nat
  isConnectedMethodDefined : Bool
  emitted : List Ev
deriving DecidableEq, Repr

/-- State produced by the constructor (lines 52 to 61): uri undefined,
fresh AsyncLock, _isConnected false, _lastConnectionResponse 0,
_lastTransaction undefined; the class-field initialisers (lines 214 to
216) install the accessor arrow functions, so isConnectedMethodDefined
is true; MAX_TIMEOUT is not yet assigned. -/
def mkRecEthers : MState :=
  { uri := none
    MAX_TIMEOUT := none
    _isConnected := false
    _lastConnectionResponse := 0
    _lastTransaction := none
    providerReadyState := none
    keepAlive := false
    lockBusy := false
    lockQueue := 0
    connectIntervals := 0
    establishPending := 0
    providersCreated := 0
    connectResolved := 0
    closeRequested := 0
    isConnectedMethodDefined := true
    emitted := [] }

/-- Embedding of init (lines 68 to 71): stores uri and MAX_TIMEOUT and
returns normally.  The body performs no validation of either argument,
so the result is ok on every input. -/
def init (s : MState) (uri : String) (max_timeout : Int) :
    Except ConfigurationError MState :=
  Except.ok { s with uri := some uri, MAX_TIMEOUT := some max_timeout }

/-- Outcome of one synchronous run of the connect executor (lines 120 to
138): the state after the segment, whether resolve was invoked during
the segment, and whether any pending callback able to invoke resolve
later was left installed (the retry interval of line 128, whose tick
calls resolve at line 133 once an establishment succeeds). -/
structure ConnectSyncResult where
  state : MState
  resolveInvoked : Bool
  resolverInstalled : Bool
deriving DecidableEq, Repr

/-- Embedding of the synchronous segment of connect (lines 120 to 138).
If _isConnected is true the executor returns at line 123 without calling
resolve and without registering anything that could call it later.
Otherwise it awaits this.lock.acquire on the key startConnection: when
the lock is busy the callback is queued; when it is free, async-lock
runs the callback, whose entire body is the setInterval call of line 128
installing the retry interval.  The callback contains no await, so its
promise settles at the end of the same synchronous segment and async-lock
releases the lock right there: the lock is never held across a suspension
point. -/
def connectSync (s : MState) : ConnectSyncResult :=
  if s._isConnected then
    { state := s, resolveInvoked := false, resolverInstalled := false }
  else if s.lockBusy then
    { state := { s with lockQueue := s.lockQueue + 1 }
      resolveInvoked := false
      resolverInstalled := true }
  else
    let acquired := { s with lockBusy := true }
    let afterCallback :=
      { acquired with connectIntervals := acquired.connectIntervals + 1 }
    let released := { afterCallback with lockBusy := false }
    { state := released, resolveInvoked := false, resolverInstalled := true }

/-- Embedding of reconnect (lines 143 to 153): when connected it only
requests a websocket close (line 147) and returns, letting the later
close event drive the rest; otherwise it runs connect. -/
def reconnectSync (s : MState) : MState :=
  if s._isConnected then { s with closeRequested := s.closeRequested + 1 }
  else (connectSync s).state

/-- Embedding of the synchronous opening segment of __establishConnection (lines
76 to 113): resets _lastConnectionResponse to 0 and _lastTransaction to
undefined (lines 79 to 80), constructs a new WebSocketProvider (line 83,
counted by providersCreated, readyState CONNECTING), registers the
websocket handlers and the pending and block listeners, and installs the
100 ms response-poll interval; the returned promise is pending until
that poll observes a nonzero response (counted by establishPending). -/
def __establishConnectionStart (s : MState) : MState :=
  { s with
    _lastConnectionResponse := 0
    _lastTransaction := none
    providerReadyState := some WS_CONNECTING
    providersCreated := s.providersCreated + 1
    establishPending := s.establishPending + 1 }

/-- Embedding of __customOpen (lines 161 to 187): returns unchanged if
already connected (line 166); otherwise records response 1 when the
response is still 0 (line 169), restarts the keep-alive interval
(lines 172 to 182), sets _isConnected and emits connected (lines 185
to 186). -/
def __customOpen (s : MState) : MState :=
  if s._isConnected then s
  else
    let s1 :=
      if s._lastConnectionResponse = 0 then
        { s with _lastConnectionResponse := 1 }
      else s
    let s2 := { s1 with keepAlive := true }
    { s2 with _isConnected := true, emitted := s2.emitted ++ [Ev.connected] }

/-- Embedding of __customClose (lines 194 to 210), the shared handler of
the websocket error and close events (lines 90 to 91); the isError flag
is the second argument of the source and is unused by the body.  Returns
unchanged if not connected (line 196); otherwise records response 2 when
the response is still 0 (line 199), clears the keep-alive interval
(line 202), clears _isConnected and emits disconnected (lines 205 to
206), then runs reconnect (line 209). -/
def __customClose (s : MState) (isError : Bool) : MState :=
  if s._isConnected = false then s
  else
    let s1 :=
      if s._lastConnectionResponse = 0 then
        { s with _lastConnectionResponse := 2 }
      else s
    let s2 := { s1 with keepAlive := false }
    let s3 :=
      { s2 with
        _isConnected := false
        emitted := s2.emitted ++ [Ev.disconnected] }
    reconnectSync s3

/-- Embedding of the pending listener (lines 95 to 98): stores Date.now()
into _lastTransaction and emits pending. -/
def pendingHandler (s : MState) (now : Int) : MState :=
  { s with _lastTransaction := some now, emitted := s.emitted ++ [Ev.pending] }

/-- Embedding of the block listener (line 99): emits block.  The body is
a single emit call and touches no instance field. -/
def blockHandler (s : MState) : MState :=
  { s with emitted := s.emitted ++ [Ev.block] }

/-- Embedding of one tick of the keep-alive interval (lines 175 to 182):
when the interval is active, return if _lastTransaction is undefined
(line 177); return if the silence is still below MAX_TIMEOUT (line 178);
otherwise run reconnect (line 181).  When MAX_TIMEOUT was never assigned
the JavaScript comparison against undefined is false, so the guard of
line 178 does not return and reconnect runs. -/
def __keepAliveTick (s : MState) (now : Int) : MState :=
  if s.keepAlive = false then s
  else
    match s._lastTransaction with
    | none => s
    | some t =>
      match s.MAX_TIMEOUT with
      | some mt => if now - t < mt then s else reconnectSync s
      | none => reconnectSync s

/-- Embedding of isConnected (line 214), with JavaScript evaluation
order: the conjunction short-circuits on a false _isConnected; only when
the flag is true is this.provider._websocket dereferenced, which raises
a TypeError while this.provider is still undefined; otherwise the
readyState is compared with WebSocket.OPEN. -/
def isConnected (s : MState) : Except JsError Bool :=
  if s._isConnected = false then Except.ok false
  else
    match s.providerReadyState with
    | none => Except.error JsError.typeError
    | some r => Except.ok (decide (r = WS_OPEN))

/-- Result of one tick of the polling interval of waitConnection. -/
inductive WaitTickResult
  | keepPolling
  | resolved
deriving DecidableEq, Repr

/-- Embedding of one tick of the waitConnection poll (lines 226 to 231).
The guard of line 227 is if (!this.isConnected) return: the operand is
the property this.isConnected itself, not a call of it, so the guard
tests the truthiness of the arrow-function value installed by the
class-field initialiser of line 214.  A function value is truthy, so
whenever the property is defined the guard falls through and the tick
clears the interval and resolves. -/
def waitConnectionTick (s : MState) : WaitTickResult :=
  if s.isConnectedMethodDefined = false then WaitTickResult.keepPolling
  else WaitTickResult.resolved

/-- Semantics of EventEmitter.emit of the Node events module, which
RecEthers extends (line 50): listeners for the event run synchronously
in registration order; if one throws, the exception propagates to the
emit caller and the remaining listeners do not run.  A listener is given
as an identifier paired with whether it throws; the result is the list
of identifiers that ran and whether the emission threw. -/
def emitRun : List (Nat × Bool) → List Nat × Bool
  | [] => ([], false)
  | (id, thr) :: rest =>
    if thr then ([id], true)
    else
      let r := emitRun rest
      (id :: r.1, r.2)

/-- Embedding of __customClose with the disconnected emission of line 206
expanded into the EventEmitter semantics: the listeners run between the
state update of line 205 and the reconnect of line 209.  When a listener
throws, the exception propagates out of the emit call inside the async
handler, so the await this.reconnect() of line 209 is never executed and
the handler promise rejects.  Returns the final state, the listeners
that ran and whether the emission threw. -/
def __customCloseEmit (s : MState) (listeners : List (Nat × Bool)) :
    MState × List Nat × Bool :=
  if s._isConnected = false then (s, ([], false))
  else
    let s1 :=
      if s._lastConnectionResponse = 0 then
        { s with _lastConnectionResponse := 2 }
      else s
    let s2 := { s1 with keepAlive := false }
    let s3 :=
      { s2 with
        _isConnected := false
        emitted := s2.emitted ++ [Ev.disconnected] }
    let r := emitRun listeners
    if r.2 then (s3, r) else (reconnectSync s3, r)

/-- Embedding of one tick of the response-poll interval installed by
__establishConnection (lines 105 to 113): while _lastConnectionResponse
is 0 the tick returns; on 1 the establish promise resolves, which lets
the awaiting retry tick of connect (lines 131 to 133) clear its interval
and resolve the connect promise; on 2 the establish promise rejects and
the catch of line 134 swallows the rejection, leaving the retry interval
alive. -/
def establishPollTick (s : MState) : MState :=
  if s.establishPending = 0 then s
  else if s._lastConnectionResponse = 0 then s
  else if s._lastConnectionResponse = 1 then
    { s with
      establishPending := s.establishPending - 1
      connectIntervals := s.connectIntervals - 1
      connectResolved := s.connectResolved + 1 }
  else { s with establishPending := s.establishPending - 1 }

/-- Synchronous segments the event loop can schedule: a call of connect
by the application, a tick of a connect retry interval (which runs
__establishConnection), a tick of a response-poll interval, the
websocket open, error and close events, the pending and block provider
signals, and a tick of the keep-alive interval. -/
inductive Step
  | connectCall
  | connectIntervalTick
  | establishPollTick
  | wsOpen
  | wsError
  | wsClose
  | pendingSignal (now : Int)
  | blockSignal
  | keepAliveTick (now : Int)
deriving DecidableEq, Repr

/-- Effect of one scheduled segment.  A retry-interval tick only fires
while some retry interval is installed; the open event sets the socket
readyState to OPEN before the handler runs, the close event sets it to
CLOSED. -/
def step (t : Step) (s : MState) : MState :=
  match t with
  | Step.connectCall => (connectSync s).state
  | Step.connectIntervalTick =>
    if s.connectIntervals = 0 then s else __establishConnectionStart s
  | Step.establishPollTick => establishPollTick s
  | Step.wsOpen => __customOpen { s with providerReadyState := some WS_OPEN }
  | Step.wsError => __customClose s true
  | Step.wsClose =>
    __customClose { s with providerReadyState := some WS_CLOSED } false
  | Step.pendingSignal now => pendingHandler s now
  | Step.blockSignal => blockHandler s
  | Step.keepAliveTick now => __keepAliveTick s now

/-- Run a list of scheduled segments in order. -/
def run (s : MState) (l : List Step) : MState :=
  l.foldl (fun st t => step t st) s

/-- Example websocket address used by the concrete states below. -/
def nodeUri : String := "ws://node"

/-- The empty address of the init validation scenario. -/
def emptyUri : String := ""

/-- Instance state after the constructor and a successful init with a
websocket address and a 5000 ms liveness timeout. -/
def initState : MState :=
  ((init mkRecEthers nodeUri 5000).toOption).getD mkRecEthers

/-- Interleaving in which connect is called, its first retry tick starts
an establishment that receives no open or error signal, and connect is
called a second time followed by the first tick of its own retry
interval, all before the first establishment settles. -/
def c1Trace : List Step :=
  [Step.connectCall, Step.connectIntervalTick,
   Step.connectCall, Step.connectIntervalTick]

/-- An established-connection state: flag set, socket OPEN, keep-alive
running, one heartbeat-free establishment already resolved. -/
def connectedEx : MState :=
  { initState with
    _isConnected := true
    _lastConnectionResponse := 1
    providerReadyState := some WS_OPEN
    keepAlive := true
    providersCreated := 1
    connectResolved := 1 }

/-- State of a freshly reopened connection: __establishConnection has
just reset the activity marker and constructed the socket, the open
event arrived and __customOpen ran, and no inbound signal has been
recorded yet. -/
def freshlyReopened (s : MState) : MState :=
  __customOpen { __establishConnectionStart s with providerReadyState := some WS_OPEN }

/-- C1: evaluation of the code at the failing interleaving.  The claim
and the header comment of the source (lines 42 to 46, the lock is said
to unlock only when __customOpen or __customClose fires) require at most
one outstanding Attempt, but the acquire callback of connect (lines 126
to 136) returns right after installing its retry interval, so async-lock
releases the lock within the same synchronous segment.  In the
interleaving c1Trace a second connect call, made while the first
establishment has received no open or error signal, finds the lock free
and its retry tick constructs a second WebSocketProvider: two providers
exist while zero establishment promises have settled and no connect
promise has resolved. -/
theorem connect_second_attempt_codebug :
    (run initState c1Trace).providersCreated = 2 ∧
    (run initState c1Trace).establishPending = 2 ∧
    (run initState c1Trace).connectResolved = 0 ∧
    (run initState c1Trace).connectIntervals = 2 := by
  decide

/-- C2: starting from any established-connection state, the first of the
two transport signals of a single drop (error and close both run
__customClose) appends exactly one disconnected event and clears the
connected flag, and the second signal, arriving while the instance is
still disconnected, leaves the state unchanged, so disconnected is
emitted exactly once for the drop. -/
theorem disconnected_emitted_once_per_drop (s : MState) (b1 b2 : Bool)
    (h : s._isConnected = true) :
    (__customClose s b1).emitted = s.emitted ++ [Ev.disconnected] ∧
    (__customClose s b1)._isConnected = false ∧
    __customClose (__customClose s b1) b2 = __customClose s b1 := by
  by_cases hr : s._lastConnectionResponse = 0 <;>
    by_cases hl : s.lockBusy <;>
      simp [__customClose, reconnectSync, connectSync, h, hr, hl]

/-- C2 witness: the drop of a concrete established connection, signalled
first by error and then by close. -/
theorem disconnected_emitted_once_per_drop_witness :
    (__customClose connectedEx true).emitted =
      connectedEx.emitted ++ [Ev.disconnected] ∧
    (__customClose connectedEx true)._isConnected = false ∧
    __customClose (__customClose connectedEx true) false =
      __customClose connectedEx true :=
  disconnected_emitted_once_per_drop connectedEx true false rfl

/-- C3: evaluation of the code at the failing input.  In a connected
state the connect executor returns at line 123 without invoking resolve
and without leaving any callback installed that could invoke it later,
so the promise handed to the caller never settles; the claim that the
promise resolves as a successful no-op fails, although no connection
work is indeed performed. -/
theorem connect_when_connected_never_resolves :
    connectedEx._isConnected = true ∧
    (connectSync connectedEx).resolveInvoked = false ∧
    (connectSync connectedEx).resolverInstalled = false ∧
    (connectSync connectedEx).state = connectedEx := by
  decide

/-- C4: evaluation of the code at the failing input.  In the freshly
initialised, disconnected state the very first poll tick of
waitConnection resolves, because the guard of line 227 tests the
truthiness of the arrow-function property this.isConnected instead of
calling it, even though isConnected would answer false in that state. -/
theorem waitConnection_resolves_while_disconnected :
    initState._isConnected = false ∧
    waitConnectionTick initState = WaitTickResult.resolved ∧
    isConnected initState = Except.ok false :=
  ⟨rfl, rfl, rfl⟩

/-- C5 counterexample: init with the empty address and timeout 1000
returns successfully and stores both values; it does not fail with a
ConfigurationError as the claim states. -/
theorem init_accepts_empty_uri :
    init mkRecEthers emptyUri 1000 =
      Except.ok { mkRecEthers with uri := some emptyUri, MAX_TIMEOUT := some 1000 } :=
  rfl

/-- C5 amended: init stores the address and the timeout unconditionally
and never fails, for every input including an empty address and a
non-positive timeout; it performs no validation and attempts no
connection (the stored state differs from the input state only in uri
and MAX_TIMEOUT, so no provider is constructed). -/
theorem init_stores_unconditionally (s : MState) (uri : String) (mt : Int) :
    init s uri mt =
      Except.ok { s with uri := some uri, MAX_TIMEOUT := some mt } :=
  rfl

/-- C6 counterexample: in a connected state whose last data item arrived
at time 5, a block (heartbeat) signal arriving at current time 10 leaves
the Activity Marker at 5: the block listener of line 99 only emits and
does not update _lastTransaction, contradicting the claim that every
inbound signal type advances the marker to the current time. -/
theorem block_does_not_advance_marker :
    (blockHandler (pendingHandler connectedEx 5))._lastTransaction = some 5 ∧
    (blockHandler (pendingHandler connectedEx 5))._lastTransaction ≠ some 10 := by
  decide

/-- C6 amended: only the pending (data item) listener advances the
Activity Marker, setting it to the current time; the block (heartbeat)
listener leaves it unchanged, the open and close handlers leave it
unchanged, and __establishConnection resets it to undefined at the start
of every attempt. -/
theorem activity_marker_paths (s : MState) (now : Int) (b : Bool) :
    (pendingHandler s now)._lastTransaction = some now ∧
    (blockHandler s)._lastTransaction = s._lastTransaction ∧
    (__customOpen s)._lastTransaction = s._lastTransaction ∧
    (__customClose s b)._lastTransaction = s._lastTransaction ∧
    (__establishConnectionStart s)._lastTransaction = none := by
  refine ⟨rfl, rfl, ?_, ?_, rfl⟩
  · by_cases h : s._isConnected <;>
      by_cases hr : s._lastConnectionResponse = 0 <;>
        simp [__customOpen, h, hr]
  · by_cases h : s._isConnected <;>
      by_cases hr : s._lastConnectionResponse = 0 <;>
        by_cases hl : s.lockBusy <;>
          simp [__customClose, reconnectSync, connectSync, h, hr, hl]

/-- C7: on a freshly reopened connection, where __establishConnection
has reset the Activity Marker to undefined and no inbound signal has
been recorded since, a keep-alive check at any current time is the
identity: the guard of line 177 returns before the timeout comparison,
so no reconnect is ever triggered, regardless of elapsed time. -/
theorem keepAlive_grace_period (s : MState) (now : Int) :
    __keepAliveTick (freshlyReopened s) now = freshlyReopened s := by
  have hm : (freshlyReopened s)._lastTransaction = none := by
    by_cases h : s._isConnected <;>
      simp [freshlyReopened, __customOpen, __establishConnectionStart, h]
  by_cases hk : (freshlyReopened s).keepAlive <;>
    simp [__keepAliveTick, hk, hm]

/-- C8: on every state in which the provider websocket exists whenever
the connected flag is set (which holds in every reachable state, since
the flag is only set by __customOpen after __establishConnection has
constructed the provider), isConnected evaluates without error to the
conjunction of the connected flag and the readyState being OPEN. -/
theorem isConnected_iff_flag_and_open (s : MState)
    (h : s._isConnected = true → s.providerReadyState.isSome = true) :
    isConnected s =
      Except.ok (s._isConnected && decide (s.providerReadyState = some WS_OPEN)) := by
  unfold isConnected
  cases hc : s._isConnected with
  | false => simp [hc]
  | true =>
    cases hp : s.providerReadyState with
    | none => exact absurd (h hc) (by simp [hp])
    | some r => by_cases hr : r = WS_OPEN <;> simp [hc, hp, hr]

/-- C8 witness: the concrete established-connection state. -/
theorem isConnected_iff_flag_and_open_witness :
    isConnected connectedEx =
      Except.ok (connectedEx._isConnected &&
        decide (connectedEx.providerReadyState = some WS_OPEN)) :=
  isConnected_iff_flag_and_open connectedEx (fun _ => rfl)

/-- Running an emission whose listener list is a block of non-throwing
listeners followed by anything runs the whole block in order and then
continues with the remainder. -/
theorem emitRun_nothrow_front (pre : List Nat) (l : List (Nat × Bool)) :
    emitRun (pre.map (fun n => (n, false)) ++ l) =
      (pre ++ (emitRun l).1, (emitRun l).2) := by
  induction pre with
  | nil => rfl
  | cons a as ih => simp [emitRun, ih]

/-- C9 counterexample: in a concrete connected state with two listeners
registered for disconnected, of which the first throws, the second
listener never runs for that occurrence and the reconnect step of
line 209 is skipped (no retry interval is installed), contradicting the
claim that the remaining listeners run and the throw does not abort the
transition logic. -/
theorem listener_throw_skips_rest :
    (__customCloseEmit connectedEx [(1, true), (2, false)]).2 = ([1], true) ∧
    (__customCloseEmit connectedEx [(1, true), (2, false)]).1.connectIntervals =
      connectedEx.connectIntervals ∧
    (__customCloseEmit connectedEx [(1, true), (2, false)]).1.closeRequested =
      connectedEx.closeRequested := by
  decide

/-- C9 amended: listeners run synchronously in registration order and
the listeners registered before a throwing one do run, but the throwing
listener ends the emission, so listeners after it are skipped for that
occurrence, and the exception propagates into the handler, so the
transition logic after the emit (the reconnect call of __customClose)
is aborted. -/
theorem listener_throw_aborts_transition (s : MState) (pre : List Nat)
    (i : Nat) (rest : List (Nat × Bool)) (h : s._isConnected = true) :
    (__customCloseEmit s (pre.map (fun n => (n, false)) ++ (i, true) :: rest)).2 =
      (pre ++ [i], true) ∧
    (__customCloseEmit s
        (pre.map (fun n => (n, false)) ++ (i, true) :: rest)).1.connectIntervals =
      s.connectIntervals ∧
    (__customCloseEmit s
        (pre.map (fun n => (n, false)) ++ (i, true) :: rest)).1.closeRequested =
      s.closeRequested := by
  have he : emitRun (pre.map (fun n => (n, false)) ++ (i, true) :: rest) =
      (pre ++ [i], true) := by
    rw [emitRun_nothrow_front]
    simp [emitRun]
  unfold __customCloseEmit
  by_cases hr : s._lastConnectionResponse = 0 <;> simp [h, hr, he]

/-- C9 amended witness: three listeners, the middle one throwing. -/
theorem listener_throw_aborts_transition_witness :
    (__customCloseEmit connectedEx [(1, false), (2, true), (3, false)]).2 =
      ([1, 2], true) ∧
    (__customCloseEmit connectedEx
        [(1, false), (2, true), (3, false)]).1.connectIntervals =
      connectedEx.connectIntervals ∧
    (__customCloseEmit connectedEx
        [(1, false), (2, true), (3, false)]).1.closeRequested =
      connectedEx.closeRequested := by
  have h := listener_throw_aborts_transition connectedEx [1] 2 [(3, false)] rfl
  simpa using h

/-- C10 counterexample: in the state left by the constructor, before any
connect has created a transport, isConnected evaluates to ok false and
raises no error: the conjunction of line 214 short-circuits on the false
_isConnected flag before this.provider is dereferenced, contradicting
the claim that the query throws in that state. -/
theorem isConnected_initial_returns_false :
    isConnected mkRecEthers = Except.ok false ∧
    mkRecEthers.providerReadyState = none :=
  ⟨rfl, rfl⟩

/-- C10 amended: in every state whose connected flag is false, in
particular every state before the first connection attempt, isConnected
returns ok false without touching the provider, so the query is total
there; and the waitConnection poll never invokes isConnected at all, so
it cannot throw either. -/
theorem isConnected_total_when_flag_false (s : MState)
    (h : s._isConnected = false) :
    isConnected s = Except.ok false := by
  simp [isConnected, h]

/-- C10 amended witness: the constructor state. -/
theorem isConnected_total_when_flag_false_witness :
    isConnected mkRecEthers = Except.ok false :=
  isConnected_total_when_flag_false mkRecEthers rfl

end RecEthers
